import Mathlib

/-!
Verification development for the country-currency-exchange service
(`src/countries/countries.service.ts`).

The service's refresh pipeline fetches a raw country list and an
exchange-rate mapping, transforms each raw record into a persisted
country row, and upserts the rows into a single-table store keyed by
country name; search and delete operate by case-insensitive substring
match on names.  The embedding below translates that pipeline:

* JavaScript `null`/`undefined`/missing string fields are `Option String`
  (with `none` for both null and undefined); the empty string is kept as
  `some ""` so that JS truthiness (`""` is falsy) can be modelled.
* The raw `population` JSON field is `PopValue`: a numeric integer value,
  a non-numeric value, or a missing value.  `parseInt(x) || 0` maps a
  numeric integer through unchanged and everything else to 0.
* The exchange-rate mapping `Record<string, number>` is an association
  list `RateMap`; rates are embedded as rationals (the service's
  arithmetic is modelled exactly over `ℚ`, with `toFixed(2)` modelled as
  round-half-up to 2 decimal places).
* `Math.random() * 1000 + 1000` (a fresh multiplier in `[1000, 2000)`
  per processed record) is modelled nondeterministically: the refresh
  function takes an oracle `mult : Nat → ℚ` giving the multiplier drawn
  for the record at each index, and theorems that need the range impose
  `1000 ≤ mult i < 2000` as a hypothesis.
* The TypeORM repository backed by the project's MySQL database
  (`app.module.ts` configures `type: 'mysql'`; no column collation is
  overridden, so string equality in a `where` clause uses MySQL's
  default case-insensitive collation, exactly as the source comments at
  the upsert site: "Match existing countries by name (case-insensitive)")
  is modelled by `Store`, a list of id-carrying rows plus an id counter.
* Failures of external collaborators (the two HTTP fetches, the database
  writes, the image rendering) are modelled as explicit parameters:
  `Except` values for the two fetch responses and the summary rendering
  body, and `dbFail : Nat → Option String` giving the cause of a thrown
  database error at a record index (`none` = the write succeeds).
-/

namespace CountryApi

/-- Raw `population` field of one record of the countries API response:
a numeric (integer) JSON value, a non-numeric value, or an absent field.
`parseInt` of a fractional numeric truncates to an integer, so integer
numerics cover the persisted outcomes; `parseInt` of a non-numeric
string or of `undefined` is `NaN`. -/
inductive PopValue where
  | num (n : Int)
  | nonNum
  | missing
deriving DecidableEq

/-- One entry of a raw record's `currencies` array; `code` may be absent. -/
structure RawCurrency where
  code : Option String
deriving DecidableEq

/-- One raw record of the countries API response.  String fields are
`none` when null/undefined and `some ""` when present but empty (both
are falsy in JS).  `currencies` is `none` when the field is absent or
not an array (the source guards with `Array.isArray`). -/
structure RawCountry where
  name : Option String
  capital : Option String
  region : Option String
  population : PopValue
  currencies : Option (List RawCurrency)
  flag : Option String
deriving DecidableEq

/-- The exchange-rate mapping `Record<string, number>` as an association
list from currency code to rate. -/
abbrev RateMap := List (String × ℚ)

/-- Mapping access `exchangeRates[code]`: the value stored under `code`,
if any. -/
def lookupRate (rates : RateMap) (code : String) : Option ℚ :=
  (rates.find? (fun p => p.1 == code)).map (fun p => p.2)

/-- JS `o || dflt` for an optional string: null/undefined and `""` are
falsy and yield the default. -/
def jsStrOr (o : Option String) (dflt : String) : String :=
  match o with
  | some s => if s = "" then dflt else s
  | none => dflt

/-- JS `o || null` for an optional string: `""` collapses to null. -/
def jsStrOrNull (o : Option String) : Option String :=
  match o with
  | some s => if s = "" then none else some s
  | none => none

/-- JS truthiness of an optional string: null/undefined and `""` are falsy. -/
def strTruthy : Option String → Bool
  | some s => !(s == "")
  | none => false

/-- The `population` computation `parseInt(c.population) || 0`: a numeric
integer passes through (including negative values; `0 || 0` is `0`
either way), a missing or non-numeric source value gives `NaN || 0 = 0`. -/
def parsePopulation : PopValue → Int
  | .num n => n
  | .nonNum => 0
  | .missing => 0

/-- The `currencyCode` selected for one raw record: the `code` of the
first entry of a non-empty `currencies` array, otherwise null
(`hasCurrency` requires an array of positive length). -/
def resolvedCurrencyCode (c : RawCountry) : Option String :=
  match c.currencies with
  | some (e :: _) => e.code
  | some [] => none
  | none => none

/-- The `exchangeRate` resolved for one raw record: the source assigns
`exchangeRates[currencyCode]` only under the truthiness test
`currencyCode && exchangeRates[currencyCode]`, so the rate stays null
when there is no currency code, when the code is the (falsy) empty
string, when the code is absent from the mapping, and when the mapped
value is the (falsy) number 0. -/
def resolvedExchangeRate (rates : RateMap) (c : RawCountry) : Option ℚ :=
  match resolvedCurrencyCode c with
  | some code =>
    if code = "" then none
    else
      match lookupRate rates code with
      | some r => if r = 0 then none else some r
      | none => none
  | none => none

/-- Rounding to two decimal places, the model of
`parseFloat(x.toFixed(2))`: round half up at the second decimal. -/
def round2 (q : ℚ) : ℚ := (⌊q * 100 + 1 / 2⌋ : ℚ) / 100

/-- The `estimatedGbp` value before rounding: under
`population > 0 && exchangeRate && exchangeRate > 0` it is
`population * multiplier / exchangeRate`, otherwise it keeps its
initial value 0. -/
def rawEstimate (rates : RateMap) (m : ℚ) (c : RawCountry) : ℚ :=
  match resolvedExchangeRate rates c with
  | some r =>
    if 0 < parsePopulation c.population ∧ 0 < r then
      (parsePopulation c.population : ℚ) * m / r
    else 0
  | none => 0

/-- The persisted shape of one country row (the `countryData` object
built in the refresh loop; `id` and the automatic timestamp are not part
of it). -/
structure CountryData where
  name : String
  capital : Option String
  region : String
  population : Int
  currency_code : Option String
  exchange_rate : Option ℚ
  estimated_gbp : ℚ
  flag_url : Option String
deriving DecidableEq

/-- The loop body of `refreshCountriesandSave` that turns one raw record
plus the rate mapping and the record's fresh multiplier `m` into the
`countryData` object passed to the store. -/
def transformCountry (rates : RateMap) (m : ℚ) (c : RawCountry) : CountryData :=
  { name := jsStrOr c.name "Unknown"
    capital := jsStrOrNull c.capital
    region := jsStrOr c.region "Unknown"
    population := parsePopulation c.population
    currency_code := resolvedCurrencyCode c
    exchange_rate := resolvedExchangeRate rates c
    estimated_gbp := round2 (rawEstimate rates m c)
    flag_url := jsStrOrNull c.flag }

/-- One stored row: the surrogate `id` assigned on insert plus the data
fields (the automatic `last_refreshed_at` timestamp is outside the
model). -/
structure Row where
  id : Nat
  data : CountryData
deriving DecidableEq

/-- The countries table: the rows in insertion order plus the next
surrogate id. -/
structure Store where
  rows : List Row
  nextId : Nat
deriving DecidableEq

/-- The empty table. -/
def emptyStore : Store := ⟨[], 0⟩

/-- Lower-casing as performed by JS `toLowerCase()` (character-wise on
the ASCII domain of the data). -/
def strLower (s : String) : String := ⟨s.data.map Char.toLower⟩

/-- Whitespace as stripped by JS `trim()` (ASCII subset). -/
def isWsp (c : Char) : Bool := c == ' ' || c == '\t' || c == '\n' || c == '\r'

/-- Dropping leading whitespace from a character list. -/
def dropWsp : List Char → List Char
  | [] => []
  | c :: cs => if isWsp c then dropWsp cs else c :: cs

/-- The JS `trim()`: strip whitespace from both ends. -/
def strTrim (s : String) : String := ⟨(dropWsp (dropWsp s.data).reverse).reverse⟩

/-- String equality as evaluated by a `where: { name: x }` clause on the
project's MySQL store: the default collation compares strings
case-insensitively, as the source comment at the upsert lookup states. -/
def nameEq (a b : String) : Bool := strLower a == strLower b

/-- The upsert lookup `countryRepository.findOne({ where: { name } })`:
the first stored row whose name equals the given one under the store's
collation. -/
def findOneByName (s : Store) (n : String) : Option Row :=
  s.rows.find? (fun r => nameEq r.data.name n)

/-- The per-record upsert: if `findOne` finds an existing row, update
that row's data in place via `update(existingCountry.id, countryData)`
(the id is untouched); otherwise `save(countryData)` inserts a new row
with a fresh id. -/
def upsert (s : Store) (d : CountryData) : Store :=
  match findOneByName s d.name with
  | some row =>
    { s with rows := s.rows.map (fun r => if r.id = row.id then { id := r.id, data := d } else r) }
  | none => { rows := s.rows ++ [{ id := s.nextId, data := d }], nextId := s.nextId + 1 }

/-- The error thrown out of `refreshCountriesandSave`: the
`ExternalAPIError` built for a failed fetch (carrying its `details`
string), or the wrapping error thrown by the processing `catch` block
(carrying its message). -/
inductive RefreshError where
  | externalAPI (details : String)
  | persistence (message : String)
deriving DecidableEq

/-- The `generateSummaryImage` method: its whole body (statistics reads,
SVG rendering, PNG file write — abstracted as the `render` outcome) runs
inside a `try` whose `catch` only logs, so the method resolves normally
whatever the body did. -/
def generateSummaryImage (render : Except String Unit) : Except String Unit :=
  match render with
  | .ok _ => .ok ()
  | .error _ => .ok ()

/-- The refresh loop without failures, starting at record index `i`:
each record is transformed with its own multiplier `mult i` and
upserted. -/
def applyRecords (rates : RateMap) (mult : Nat → ℚ) : Nat → List RawCountry → Store → Store
  | _, [], s => s
  | i, c :: cs, s =>
    applyRecords rates mult (i + 1) cs (upsert s (transformCountry rates (mult i) c))

/-- The refresh loop with database failures: `dbFail i = some cause`
means the store operation for the record at index `i` throws `cause`,
aborting the loop with the store as written so far. -/
def refreshLoop (rates : RateMap) (mult : Nat → ℚ) (dbFail : Nat → Option String) :
    Nat → List RawCountry → Store → Store × Option String
  | _, [], s => (s, none)
  | i, c :: cs, s =>
    match dbFail i with
    | some cause => (s, some cause)
    | none =>
      refreshLoop rates mult dbFail (i + 1) cs (upsert s (transformCountry rates (mult i) c))

/-- The `refreshCountriesandSave` method.  `countriesResp` and
`ratesResp` are the outcomes of the two awaited `axios.get` calls (an
`error` covers network error, timeout, or non-2xx), `mult` the
multiplier oracle, `dbFail` the database-failure oracle, `render` the
outcome of the summary-image body, and `s` the store at entry.  The
result pairs the store after the call with the method's outcome: each
fetch failure is rethrown as an `ExternalAPIError` with its source in
the details; any error thrown inside the processing block (a database
write, or — hypothetically — summary generation, which runs inside the
same `try`) is wrapped as "Failed to save countries to database: …";
the outer catch rethrows unchanged. -/
def refreshCountriesandSave (countriesResp : Except String (List RawCountry))
    (ratesResp : Except String RateMap) (mult : Nat → ℚ) (dbFail : Nat → Option String)
    (render : Except String Unit) (s : Store) : Store × Except RefreshError Unit :=
  match countriesResp with
  | .error _ => (s, .error (.externalAPI "Could not fetch data from Countries API"))
  | .ok countries =>
    match ratesResp with
    | .error _ => (s, .error (.externalAPI "Could not fetch data from Exchange Rate API"))
    | .ok rates =>
      match refreshLoop rates mult dbFail 0 countries s with
      | (s', none) =>
        match generateSummaryImage render with
        | .ok _ => (s', .ok ())
        | .error e => (s', .error (.persistence ("Failed to save countries to database: " ++ e)))
      | (s', some cause) =>
        (s', .error (.persistence ("Failed to save countries to database: " ++ cause)))

/-- The `name` query parameter as the service receives it: absent, a
non-string value, or a string. -/
inductive QueryInput where
  | missing
  | nonString
  | str (s : String)
deriving DecidableEq

/-- The validation test `!name || typeof name !== 'string' ||
name.trim().length === 0`, negated: a query is valid exactly when it is
a non-empty string whose trim is non-empty. -/
def validQuery : QueryInput → Bool
  | .str s => !(s == "") && !(strTrim s == "")
  | .missing => false
  | .nonString => false

/-- Whether a character list starts with the pattern `p`. -/
def startsWithCh : List Char → List Char → Bool
  | [], _ => true
  | _ :: _, [] => false
  | a :: as, b :: bs => a == b && startsWithCh as bs

/-- Whether a character list contains the pattern `p` as a contiguous
run. -/
def hasSubCh (p : List Char) : List Char → Bool
  | [] => startsWithCh p []
  | b :: bs => startsWithCh p (b :: bs) || hasSubCh p bs

/-- Substring containment on strings: `strContains s pat` holds when
`pat` occurs contiguously in `s`. -/
def strContains (s pat : String) : Bool := hasSubCh pat.data s.data

/-- The row filter generated by
`LOWER(country.name) LIKE '%' + name.toLowerCase().trim() + '%'`:
the lowered stored name contains the lowered, trimmed query.  (The
embedding treats the query literally; SQL `LIKE` metacharacters are
outside the modelled domain.) -/
def matchesQuery (nm : String) (r : Row) : Bool :=
  strContains (strLower r.data.name) (strTrim (strLower nm))

/-- The errors thrown by search and delete: `ValidationError` (400) and
`NotFoundError` (404). -/
inductive ServiceError where
  | validation
  | notFound
deriving DecidableEq

/-- The `findCountriesByName` method: validation error for a missing,
non-string, empty, or whitespace-only query; otherwise the rows matching
the lowered trimmed query as a substring, with a not-found error when
there are none. -/
def findCountriesByName (s : Store) (q : QueryInput) : Except ServiceError (List Row) :=
  match q with
  | .str nm =>
    if nm = "" ∨ strTrim nm = "" then .error .validation
    else
      match s.rows.filter (matchesQuery nm) with
      | [] => .error .notFound
      | r :: rs => .ok (r :: rs)
  | .missing => .error .validation
  | .nonString => .error .validation

/-- The `deleteCountriesByName` method: same validation and lookup as
search; on a match, `remove` deletes exactly the matching rows and the
method reports their count.  The result pairs the store after the call
with the outcome. -/
def deleteCountriesByName (s : Store) (q : QueryInput) : Store × Except ServiceError Nat :=
  match q with
  | .str nm =>
    if nm = "" ∨ strTrim nm = "" then (s, .error .validation)
    else
      match s.rows.filter (matchesQuery nm) with
      | [] => (s, .error .notFound)
      | r :: rs =>
        ({ s with rows := s.rows.filter (fun x => !(matchesQuery nm x)) },
          .ok (r :: rs).length)
  | .missing => (s, .error .validation)
  | .nonString => (s, .error .validation)

/-! Concrete instances used by counterexamples and witnesses. -/

/-- A raw record with population 1 and first currency `USD`. -/
def cTestland : RawCountry :=
  { name := some "Testland", capital := none, region := none,
    population := .num 1, currencies := some [⟨some "USD"⟩], flag := none }

/-- A rate mapping carrying `USD ↦ 3`. -/
def ratesUsd3 : RateMap := [("USD", 3)]

/-- A raw record with population 100 and first currency `USD`. -/
def cHundred : RawCountry :=
  { name := some "Testland", capital := none, region := none,
    population := .num 100, currencies := some [⟨some "USD"⟩], flag := none }

/-- A rate mapping carrying `USD ↦ 2`. -/
def ratesUsd2 : RateMap := [("USD", 2)]

/-- A raw record whose first currency code `XYZ` is mapped to the rate 0. -/
def cZeroRate : RawCountry :=
  { name := some "Zeroland", capital := none, region := none,
    population := .num 10, currencies := some [⟨some "XYZ"⟩], flag := none }

/-- A rate mapping carrying `XYZ ↦ 0`. -/
def ratesXyz0 : RateMap := [("XYZ", 0)]

/-- A raw record with first currency `EUR`. -/
def cEur : RawCountry :=
  { name := some "Euroland", capital := none, region := none,
    population := .num 10, currencies := some [⟨some "EUR"⟩], flag := none }

/-- A rate mapping carrying `EUR ↦ 7`. -/
def ratesEur7 : RateMap := [("EUR", 7)]

/-- A raw record named `FRANCE`, currency-less. -/
def cFranceUpper : RawCountry :=
  { name := some "FRANCE", capital := none, region := none,
    population := .missing, currencies := none, flag := none }

/-- A raw record named `france`, currency-less. -/
def cFranceLower : RawCountry :=
  { name := some "france", capital := none, region := none,
    population := .missing, currencies := none, flag := none }

/-- A country-data value named `FRANCE`. -/
def dFranceUpper : CountryData :=
  { name := "FRANCE", capital := none, region := "Unknown", population := 0,
    currency_code := none, exchange_rate := none, estimated_gbp := 0, flag_url := none }

/-- A country-data value named `france`. -/
def dFranceLower : CountryData :=
  { name := "france", capital := none, region := "Unknown", population := 0,
    currency_code := none, exchange_rate := none, estimated_gbp := 0, flag_url := none }

/-- A stored row for the country `United Kingdom`. -/
def ukData : CountryData :=
  { name := "United Kingdom", capital := some "London", region := "Europe",
    population := 67886011, currency_code := some "GBP", exchange_rate := some 1,
    estimated_gbp := 0, flag_url := none }

/-- A store holding only the `United Kingdom` row under id 1. -/
def ukStore : Store := ⟨[⟨1, ukData⟩], 2⟩

/-- A database-failure oracle that fails exactly the write of record 1
with the cause string "duplicate key". -/
def dbFailAt1 : Nat → Option String := fun n => if n = 1 then some "duplicate key" else none

/-- A raw record whose numeric population is negative. -/
def cNegPop : RawCountry :=
  { name := some "Negland", capital := none, region := none,
    population := .num (-5), currencies := none, flag := none }

/-- A raw record with population 5. -/
def cFivePop : RawCountry :=
  { name := some "Fiveland", capital := none, region := none,
    population := .num 5, currencies := none, flag := none }

/-- A raw record with an absent name and capital `Alpha`. -/
def cNoName1 : RawCountry :=
  { name := none, capital := some "Alpha", region := none,
    population := .missing, currencies := none, flag := none }

/-- A raw record with an empty-string name and capital `Beta`. -/
def cNoName2 : RawCountry :=
  { name := some "", capital := some "Beta", region := none,
    population := .missing, currencies := none, flag := none }

/-! Rounding bounds shared by the estimate theorems. -/

/-- Rounding to two decimals moves a value up by at most `1/200`. -/
theorem round2_le (q : ℚ) : round2 q ≤ q + 1 / 200 := by
  unfold round2
  have h := Int.floor_le (q * 100 + 1 / 2)
  have h100 : (0:ℚ) < 100 := by norm_num
  rw [div_le_iff₀ h100]
  linarith

/-- Rounding to two decimals moves a value down by at most `1/200`. -/
theorem le_round2 (q : ℚ) : q - 1 / 200 ≤ round2 q := by
  unfold round2
  have h := Int.sub_one_lt_floor (q * 100 + 1 / 2)
  have h100 : (0:ℚ) < 100 := by norm_num
  rw [le_div_iff₀ h100]
  linarith

/-! Claim C1: the estimate formula and its claimed bounds. -/

/-- C1 counterexample: with population 1, rate `USD ↦ 3` and the valid
multiplier draw 1000, the stored `estimated_gbp` is `333.33`, which lies
strictly below the claimed lower bound `population * 1000 / rate =
1000/3`; the claim that the stored value always lies within
`[population*1000/rate, population*2000/rate]` is false because of the
rounding to 2 decimal places. -/
theorem countriesC1_counterexample :
    (1000:ℚ) ≤ 1000 ∧ (1000:ℚ) < 2000 ∧
    (transformCountry ratesUsd3 1000 cTestland).population = 1 ∧
    resolvedExchangeRate ratesUsd3 cTestland = some 3 ∧
    (transformCountry ratesUsd3 1000 cTestland).estimated_gbp = 33333 / 100 ∧
    ¬ ((1:ℚ) * 1000 / 3 ≤ (transformCountry ratesUsd3 1000 cTestland).estimated_gbp) := by
  have hest : (transformCountry ratesUsd3 1000 cTestland).estimated_gbp
      = round2 ((1:ℚ) * 1000 / 3) := by
    have h1 : resolvedExchangeRate ratesUsd3 cTestland = some 3 := rfl
    have h2 : parsePopulation cTestland.population = 1 := rfl
    simp [transformCountry, rawEstimate, h1, h2]
  have hval : round2 ((1:ℚ) * 1000 / 3) = 33333 / 100 := by
    unfold round2
    norm_num
  refine ⟨by norm_num, by norm_num, rfl, rfl, by rw [hest, hval], ?_⟩
  rw [hest, hval]
  norm_num

/-- C1 (amended): for a record with positive population and a resolved
positive exchange rate, the stored `estimated_gbp` is the rounded value
`round2 (population * m / rate)` for the record's fresh multiplier
`m ∈ [1000, 2000)`, and therefore lies within the claimed interval
widened by the maximal rounding error `1/200` on each side:
`[population*1000/rate - 0.005, population*2000/rate + 0.005]`; in every
other case (no resolved rate, non-positive rate, or non-positive
population) the stored value is 0. -/
theorem countriesC1_amended (c : RawCountry) (rates : RateMap) (m r : ℚ)
    (hm₁ : 1000 ≤ m) (hm₂ : m < 2000) :
    (resolvedExchangeRate rates c = some r → 0 < r → 0 < parsePopulation c.population →
      (parsePopulation c.population : ℚ) * 1000 / r - 1 / 200
          ≤ (transformCountry rates m c).estimated_gbp ∧
        (transformCountry rates m c).estimated_gbp
          ≤ (parsePopulation c.population : ℚ) * 2000 / r + 1 / 200) ∧
    (resolvedExchangeRate rates c = none → (transformCountry rates m c).estimated_gbp = 0) ∧
    (resolvedExchangeRate rates c = some r → r ≤ 0 ∨ parsePopulation c.population ≤ 0 →
      (transformCountry rates m c).estimated_gbp = 0) := by
  refine ⟨?_, ?_, ?_⟩
  · intro hr hrpos hppos
    have hest : (transformCountry rates m c).estimated_gbp
        = round2 ((parsePopulation c.population : ℚ) * m / r) := by
      simp [transformCountry, rawEstimate, hr, hppos, hrpos]
    have hp0 : (0:ℚ) ≤ (parsePopulation c.population : ℚ) := by
      exact_mod_cast hppos.le
    have hlow : (parsePopulation c.population : ℚ) * 1000 / r
        ≤ (parsePopulation c.population : ℚ) * m / r := by
      gcongr
    have hhigh : (parsePopulation c.population : ℚ) * m / r
        ≤ (parsePopulation c.population : ℚ) * 2000 / r := by
      gcongr
    rw [hest]
    constructor
    · have := le_round2 ((parsePopulation c.population : ℚ) * m / r)
      linarith
    · have := round2_le ((parsePopulation c.population : ℚ) * m / r)
      linarith
  · intro hr
    simp [transformCountry, rawEstimate, hr, round2]
    norm_num
  · intro hr hneg
    have hnot : ¬ (0 < parsePopulation c.population ∧ 0 < r) := by
      rcases hneg with h | h
      · rintro ⟨_, h2⟩; exact absurd h2 (not_lt.mpr h)
      · rintro ⟨h1, _⟩; exact absurd h1 (not_lt.mpr h)
    simp [transformCountry, rawEstimate, hr, hnot, round2]
    norm_num

/-- C1 witness: population 100, rate `USD ↦ 2`, multiplier 1500 — the
stored estimate lies within the widened interval around
`[100*1000/2, 100*2000/2]`. -/
theorem countriesC1_amended_witness :
    (parsePopulation cHundred.population : ℚ) * 1000 / 2 - 1 / 200
        ≤ (transformCountry ratesUsd2 1500 cHundred).estimated_gbp ∧
      (transformCountry ratesUsd2 1500 cHundred).estimated_gbp
        ≤ (parsePopulation cHundred.population : ℚ) * 2000 / 2 + 1 / 200 :=
  (countriesC1_amended cHundred ratesUsd2 1500 2 (by decide) (by decide)).1
    rfl (by decide) (by decide)

/-! Claim C2: currency selection and rate lookup. -/

/-- C2 counterexample: the first currency code `XYZ` is present in the
rate mapping with value 0, but the transformed record's `exchange_rate`
is absent rather than the mapping's value: the truthiness test
`exchangeRates[currencyCode]` also rejects a present-but-zero rate, so
the claim that `exchange_rate` is the mapping's value for every mapped
code is false. -/
theorem countriesC2_counterexample :
    resolvedCurrencyCode cZeroRate = some "XYZ" ∧
    lookupRate ratesXyz0 "XYZ" = some 0 ∧
    (transformCountry ratesXyz0 1500 cZeroRate).currency_code = some "XYZ" ∧
    (transformCountry ratesXyz0 1500 cZeroRate).exchange_rate = none ∧
    (transformCountry ratesXyz0 1500 cZeroRate).exchange_rate ≠ some 0 := by
  refine ⟨rfl, rfl, rfl, rfl, ?_⟩
  intro h
  exact Option.noConfusion (rfl.symm.trans h)

/-- Characterization of the resolved exchange rate: it is `some r`
exactly when the record has a non-empty first currency code that the
mapping sends to the non-zero value `r`. -/
theorem resolvedRate_some_iff (rates : RateMap) (c : RawCountry) (r : ℚ) :
    resolvedExchangeRate rates c = some r ↔
      ∃ code, resolvedCurrencyCode c = some code ∧ code ≠ "" ∧
        lookupRate rates code = some r ∧ r ≠ 0 := by
  unfold resolvedExchangeRate
  rcases h : resolvedCurrencyCode c with _ | code
  · simp
  · simp only [Option.some.injEq]
    by_cases hne : code = ""
    · subst hne; simp
    · rcases hl : lookupRate rates code with _ | r'
      · simp [hne, hl]
      · by_cases hz : r' = 0
        · subst hz; simp [hne, hl]
          exact fun hh => hh.symm
        · simp [hne, hl, hz]
          intro hrr
          subst hrr
          exact hz

/-- C2 (amended): a record with an empty or absent currency list gets
absent `currency_code` and `exchange_rate` and the rate mapping is not
consulted (the transform does not depend on it); a record with a
non-empty list gets the first entry's code as `currency_code`, and
`exchange_rate` is the mapping's value for that code when the code is a
non-empty string mapped to a non-zero value, staying absent when the
code is missing from the mapping or mapped to 0; `exchange_rate` is
never present without a non-empty `currency_code`. -/
theorem countriesC2_amended (c : RawCountry) (rates : RateMap) (m : ℚ) :
    ((c.currencies = none ∨ c.currencies = some []) →
      (transformCountry rates m c).currency_code = none ∧
      (transformCountry rates m c).exchange_rate = none ∧
      ∀ rates', transformCountry rates' m c = transformCountry rates m c) ∧
    (∀ e rest, c.currencies = some (e :: rest) →
      (transformCountry rates m c).currency_code = e.code) ∧
    (∀ e rest code r, c.currencies = some (e :: rest) → e.code = some code → code ≠ "" →
      lookupRate rates code = some r → r ≠ 0 →
      (transformCountry rates m c).exchange_rate = some r) ∧
    (∀ e rest code, c.currencies = some (e :: rest) → e.code = some code →
      (lookupRate rates code = none ∨ lookupRate rates code = some 0) →
      (transformCountry rates m c).exchange_rate = none) ∧
    (∀ r, (transformCountry rates m c).exchange_rate = some r →
      ∃ code, (transformCountry rates m c).currency_code = some code ∧ code ≠ "" ∧
        lookupRate rates code = some r ∧ r ≠ 0) := by
  refine ⟨?_, ?_, ?_, ?_, ?_⟩
  · intro h
    have hcc : resolvedCurrencyCode c = none := by
      rcases h with h | h <;> simp [resolvedCurrencyCode, h]
    refine ⟨by simp [transformCountry, hcc],
      by simp [transformCountry, resolvedExchangeRate, hcc], ?_⟩
    intro rates'
    have h1 : resolvedExchangeRate rates' c = none := by simp [resolvedExchangeRate, hcc]
    have h2 : resolvedExchangeRate rates c = none := by simp [resolvedExchangeRate, hcc]
    simp [transformCountry, rawEstimate, h1, h2]
  · intro e rest h
    simp [transformCountry, resolvedCurrencyCode, h]
  · intro e rest code r hcur hcode hne hlook hr0
    simp [transformCountry, resolvedExchangeRate, resolvedCurrencyCode, hcur, hcode, hne,
      hlook, hr0]
  · intro e rest code hcur hcode hlook
    rcases hlook with h | h <;>
      simp [transformCountry, resolvedExchangeRate, resolvedCurrencyCode, hcur, hcode, h]
  · intro r hr
    have hx : resolvedExchangeRate rates c = some r := hr
    rcases (resolvedRate_some_iff rates c r).mp hx with ⟨code, hcc, hne, hl, hz⟩
    exact ⟨code, by simp [transformCountry, hcc], hne, hl, hz⟩

/-- C2 witness: a record with first currency `EUR` under the mapping
`EUR ↦ 7` stores `exchange_rate = 7`. -/
theorem countriesC2_amended_witness :
    (transformCountry ratesEur7 1500 cEur).exchange_rate = some 7 :=
  (countriesC2_amended cEur ratesEur7 1500).2.2.1 ⟨some "EUR"⟩ [] "EUR" 7
    rfl rfl (by decide) rfl (by decide)

/-! Claim C3: upsert lookup semantics. -/

/-- C3 counterexample: refreshing the two source records named `FRANCE`
and `france` (differing only in letter case) into an empty store yields
a single row, not the two separate rows the claim predicts: the upsert
lookup `findOne({ where: { name } })` compares names with the MySQL
default collation, case-insensitively — as the source comment at the
lookup itself states — so the second record updates the first one's
row. -/
theorem countriesC3_counterexample :
    (refreshCountriesandSave (.ok [cFranceUpper, cFranceLower]) (.ok []) (fun _ => 1500)
        (fun _ => none) (.ok ()) emptyStore).1.rows.map (fun r => r.data.name) = ["france"] ∧
    (refreshCountriesandSave (.ok [cFranceUpper, cFranceLower]) (.ok []) (fun _ => 1500)
        (fun _ => none) (.ok ()) emptyStore).1.rows.length ≠ 2 := by
  exact ⟨rfl, by decide⟩

/-- C3 (amended): the upsert looks up an existing row by
case-insensitive exact match on `name`; if such a row exists, it updates
that row's fields in place — the row count and every row's `id` are
unchanged, and the matched row now carries the new data — otherwise a
new row is appended.  Consequently two source records whose names differ
only in letter case are stored as one single row, the second overwriting
the first. -/
theorem countriesC3_amended (s : Store) (d : CountryData) :
    (∀ row, findOneByName s d.name = some row →
      (upsert s d).rows.length = s.rows.length ∧
      (upsert s d).rows.map Row.id = s.rows.map Row.id ∧
      Row.mk row.id d ∈ (upsert s d).rows) ∧
    (findOneByName s d.name = none →
      (upsert s d).rows = s.rows ++ [⟨s.nextId, d⟩]) ∧
    (∀ d' : CountryData, strLower d'.name = strLower d.name →
      (upsert (upsert emptyStore d') d).rows = [⟨0, d⟩]) := by
  refine ⟨?_, ?_, ?_⟩
  · intro row hrow
    have hmem : row ∈ s.rows := List.mem_of_find?_eq_some hrow
    refine ⟨?_, ?_, ?_⟩
    · simp [upsert, hrow]
    · simp only [upsert, hrow, List.map_map]
      apply List.map_congr_left
      intro r _
      by_cases h : r.id = row.id <;> simp [h]
    · simp only [upsert, hrow]
      have hthis : (fun r => if r.id = row.id then Row.mk r.id d else r) row
          = Row.mk row.id d := by
        simp
      exact hthis ▸ List.mem_map_of_mem _ hmem
  · intro hnone
    simp [upsert, hnone]
  · intro d' hname
    have h1 : upsert emptyStore d' = ⟨[⟨0, d'⟩], 1⟩ := rfl
    rw [h1]
    have h2 : findOneByName ⟨[⟨0, d'⟩], 1⟩ d.name = some ⟨0, d'⟩ := by
      simp [findOneByName, nameEq, hname]
    simp [upsert, h2]

/-- C3 witness: upserting the data named `FRANCE` and then the data
named `france` into an empty store leaves one row, holding the later
data under the original id 0. -/
theorem countriesC3_amended_witness :
    (upsert (upsert emptyStore dFranceUpper) dFranceLower).rows = [⟨0, dFranceLower⟩] :=
  (countriesC3_amended emptyStore dFranceLower).2.2 dFranceUpper (by decide)

/-! Claim C4: external fetch failures abort the refresh before any write. -/

/-- C4: when the country-list fetch fails, the refresh fails with the
countries `ExternalAPIError`, the store is untouched, and the result
does not depend on the exchange-rate response (the rate fetch is only
reached after the country fetch succeeds); when the country fetch
succeeds and the rate fetch fails, the refresh fails with the
exchange-rate `ExternalAPIError`, again with the store untouched and no
record transformed or written. -/
theorem countriesC4 (countriesResp : Except String (List RawCountry))
    (ratesResp ratesResp' : Except String RateMap) (mult : Nat → ℚ)
    (dbFail : Nat → Option String) (render : Except String Unit) (s : Store) :
    (∀ e, countriesResp = .error e →
      refreshCountriesandSave countriesResp ratesResp mult dbFail render s
          = (s, .error (.externalAPI "Could not fetch data from Countries API")) ∧
        refreshCountriesandSave countriesResp ratesResp mult dbFail render s
          = refreshCountriesandSave countriesResp ratesResp' mult dbFail render s) ∧
    (∀ cs e, countriesResp = .ok cs → ratesResp = .error e →
      refreshCountriesandSave countriesResp ratesResp mult dbFail render s
        = (s, .error (.externalAPI "Could not fetch data from Exchange Rate API"))) := by
  constructor
  · rintro e rfl
    exact ⟨rfl, rfl⟩
  · rintro cs e rfl rfl
    rfl

/-- C4 witness: a timed-out country fetch and a timed-out rate fetch
each abort the refresh with the respective error and leave the store
unchanged. -/
theorem countriesC4_witness :
    refreshCountriesandSave (.error "timeout") (.ok []) (fun _ => 1500) (fun _ => none)
        (.ok ()) ukStore
      = (ukStore, .error (.externalAPI "Could not fetch data from Countries API")) ∧
    refreshCountriesandSave (.ok []) (.error "timeout") (fun _ => 1500) (fun _ => none)
        (.ok ()) ukStore
      = (ukStore, .error (.externalAPI "Could not fetch data from Exchange Rate API")) :=
  ⟨((countriesC4 (.error "timeout") (.ok []) (.ok []) (fun _ => 1500) (fun _ => none)
      (.ok ()) ukStore).1 "timeout" rfl).1,
    (countriesC4 (.ok []) (.error "timeout") (.ok []) (fun _ => 1500) (fun _ => none)
      (.ok ()) ukStore).2 [] "timeout" rfl rfl⟩

/-! Claim C5: a mid-loop write failure aborts the refresh, keeping the
prefix already written. -/

/-- Helper: if the first database failure in the loop started at index
`k` happens `i` records in, the loop stops there, returning the store
produced by upserting exactly the first `i` records and the failure
cause. -/
theorem refreshLoop_fail (rates : RateMap) (mult : Nat → ℚ) (dbFail : Nat → Option String)
    (cause : String) :
    ∀ (cs : List RawCountry) (i k : Nat) (s : Store), i < cs.length →
      dbFail (k + i) = some cause → (∀ j, j < i → dbFail (k + j) = none) →
      refreshLoop rates mult dbFail k cs s
        = (applyRecords rates mult k (cs.take i) s, some cause) := by
  intro cs
  induction cs with
  | nil =>
    intro i k s hi
    simp at hi
  | cons c cs ih =>
    intro i k s hi hf hok
    cases i with
    | zero =>
      have h0 : dbFail k = some cause := by simpa using hf
      simp [refreshLoop, h0, applyRecords]
    | succ i' =>
      have h0 : dbFail k = none := by simpa using hok 0 (Nat.succ_pos _)
      have step := ih i' (k + 1) (upsert s (transformCountry rates (mult k) c))
        (by simpa using hi)
        (by rw [show k + 1 + i' = k + (i' + 1) by omega]; exact hf)
        (fun j hj => by
          rw [show k + 1 + j = k + (j + 1) by omega]
          exact hok (j + 1) (by omega))
      simp [refreshLoop, h0, applyRecords, step]

/-- C5: if the store write for the record at position `i` fails during
refresh (all earlier writes succeeding), the refresh aborts with the
wrapping persistence error carrying the underlying cause, the upserts of
the records at positions `0..i-1` remain committed in the resulting
store, and no later record is processed. -/
theorem countriesC5 (cs : List RawCountry) (rates : RateMap) (mult : Nat → ℚ)
    (dbFail : Nat → Option String) (render : Except String Unit) (s : Store)
    (i : Nat) (cause : String) (hi : i < cs.length) (hf : dbFail i = some cause)
    (hok : ∀ j, j < i → dbFail j = none) :
    refreshCountriesandSave (.ok cs) (.ok rates) mult dbFail render s
      = (applyRecords rates mult 0 (cs.take i) s,
        .error (.persistence ("Failed to save countries to database: " ++ cause))) := by
  have h := refreshLoop_fail rates mult dbFail cause cs i 0 s hi (by simpa using hf)
    (fun j hj => by simpa using hok j hj)
  simp [refreshCountriesandSave, h]

/-- C5 witness: with two source records and a write failure at position
1, the refresh ends in the persistence error wrapping "duplicate key"
with exactly the first record's upsert applied. -/
theorem countriesC5_witness :
    refreshCountriesandSave (.ok [cFranceUpper, cHundred]) (.ok ratesUsd2) (fun _ => 1500)
        dbFailAt1 (.ok ()) emptyStore
      = (applyRecords ratesUsd2 (fun _ => 1500) 0 ([cFranceUpper, cHundred].take 1) emptyStore,
        .error (.persistence ("Failed to save countries to database: " ++ "duplicate key"))) :=
  countriesC5 [cFranceUpper, cHundred] ratesUsd2 (fun _ => 1500) dbFailAt1 (.ok ()) emptyStore
    1 "duplicate key" (by decide) rfl
    (fun j hj => by rw [Nat.lt_one_iff.mp hj]; rfl)

/-! Claim C6: summary generation never fails the refresh. -/

/-- C6: `generateSummaryImage` resolves normally whatever its body did
(its internal failures are swallowed by its own catch); consequently the
refresh result never depends on the summary-rendering outcome, and a
refresh whose loop completed reports success even when the rendering
failed. -/
theorem countriesC6 (render render' : Except String Unit)
    (countriesResp : Except String (List RawCountry)) (ratesResp : Except String RateMap)
    (mult : Nat → ℚ) (dbFail : Nat → Option String) (s : Store) :
    generateSummaryImage render = .ok () ∧
    refreshCountriesandSave countriesResp ratesResp mult dbFail render s
      = refreshCountriesandSave countriesResp ratesResp mult dbFail render' s ∧
    (∀ cs rates s', refreshLoop rates mult dbFail 0 cs s = (s', none) →
      refreshCountriesandSave (.ok cs) (.ok rates) mult dbFail render s = (s', .ok ())) := by
  refine ⟨?_, ?_, ?_⟩
  · cases render <;> rfl
  · cases countriesResp with
    | error e => rfl
    | ok cs =>
      cases ratesResp with
      | error e => rfl
      | ok rates =>
        simp only [refreshCountriesandSave]
        rcases h : refreshLoop rates mult dbFail 0 cs s with ⟨s', res⟩
        cases res <;> cases render <;> cases render' <;> rfl
  · intro cs rates s' h
    simp [refreshCountriesandSave, h]
    cases render <;> rfl

/-- C6 witness: a refresh over an empty source list still reports
success when the summary rendering crashed. -/
theorem countriesC6_witness :
    refreshCountriesandSave (.ok []) (.ok []) (fun _ => 1500) (fun _ => none)
        (.error "sharp crashed") emptyStore = (emptyStore, .ok ()) :=
  (countriesC6 (.error "sharp crashed") (.ok ()) (.ok []) (.ok []) (fun _ => 1500)
    (fun _ => none) emptyStore).2.2 [] [] emptyStore rfl

/-! Claim C7: search validation and matching. -/

/-- C7 counterexample: the query `" king "` is valid, no stored name
contains it as a case-insensitive substring (the store holds only
`United Kingdom`, and `"united kingdom"` has no occurrence of
`" king "`), yet the search returns that row instead of the
`NotFoundError` the claim prescribes: the service trims the query before
matching, so it does not return exactly the case-insensitive substring
matches of the query as given. -/
theorem countriesC7_counterexample :
    validQuery (.str " king ") = true ∧
    strContains (strLower "United Kingdom") (strLower " king ") = false ∧
    findCountriesByName ukStore (.str " king ") = .ok [⟨1, ukData⟩] := ⟨rfl, rfl, rfl⟩

/-- C7 (amended): the search fails with `ValidationError` for every
missing, non-string, empty, or whitespace-only query; for a valid query
it fails with `NotFoundError` exactly when no stored record matches the
*trimmed* query as a case-insensitive substring, and otherwise returns
exactly the records whose names contain the trimmed query as a
case-insensitive substring. -/
theorem countriesC7_amended (s : Store) (q : QueryInput) :
    (validQuery q = false → findCountriesByName s q = .error .validation) ∧
    (∀ nm, q = .str nm → validQuery q = true →
      (s.rows.filter (matchesQuery nm) = [] → findCountriesByName s q = .error .notFound) ∧
      (s.rows.filter (matchesQuery nm) ≠ [] →
        findCountriesByName s q = .ok (s.rows.filter (matchesQuery nm)))) := by
  cases q with
  | missing => exact ⟨fun _ => rfl, fun nm h => by cases h⟩
  | nonString => exact ⟨fun _ => rfl, fun nm h => by cases h⟩
  | str nm0 =>
    constructor
    · intro hv
      have hcond : nm0 = "" ∨ strTrim nm0 = "" := by
        simp [validQuery] at hv
        by_cases h : nm0 = ""
        · left; exact h
        · right; exact hv h
      simp [findCountriesByName, hcond]
    · intro nm heq hv
      cases heq
      have hcond : ¬ (nm0 = "" ∨ strTrim nm0 = "") := by
        simp [validQuery] at hv
        rcases hv with ⟨h1, h2⟩
        rintro (h | h)
        · exact h1 h
        · exact h2 h
      constructor
      · intro hfil
        simp [findCountriesByName, hcond, hfil]
      · intro hfil
        rcases hlist : s.rows.filter (matchesQuery nm0) with _ | ⟨r, rs⟩
        · exact absurd hlist hfil
        · simp [findCountriesByName, hcond, hlist]

/-- C7 witness: the query `" KING "` (valid, trimming to `king`) returns
the `United Kingdom` row. -/
theorem countriesC7_amended_witness :
    findCountriesByName ukStore (.str " KING ") = .ok [⟨1, ukData⟩] := by
  have h := ((countriesC7_amended ukStore (.str " KING ")).2 " KING " rfl (by decide)).2
    (by decide)
  rw [h]
  rfl

/-! Claim C8: delete validation and matching. -/

/-- C8 counterexample: for the valid query `" king "`, which matches no
stored name as a case-insensitive substring, the claim prescribes
`NotFoundError` with the store unchanged — but the service trims the
query before matching, deletes the `United Kingdom` row and reports one
deletion. -/
theorem countriesC8_counterexample :
    validQuery (.str " king ") = true ∧
    strContains (strLower "United Kingdom") (strLower " king ") = false ∧
    deleteCountriesByName ukStore (.str " king ") = (⟨[], 2⟩, .ok 1) := ⟨rfl, rfl, rfl⟩

/-- C8 (amended): delete applies the same validation and not-found rules
as search, with matching performed against the *trimmed* query; on
`ValidationError` or `NotFoundError` the store is unchanged, and on
success exactly the case-insensitive substring matches of the trimmed
query are removed and their count returned. -/
theorem countriesC8_amended (s : Store) (q : QueryInput) :
    (validQuery q = false → deleteCountriesByName s q = (s, .error .validation)) ∧
    (∀ nm, q = .str nm → validQuery q = true →
      (s.rows.filter (matchesQuery nm) = [] →
        deleteCountriesByName s q = (s, .error .notFound)) ∧
      (s.rows.filter (matchesQuery nm) ≠ [] →
        deleteCountriesByName s q
          = ({ s with rows := s.rows.filter (fun x => !(matchesQuery nm x)) },
            .ok (s.rows.filter (matchesQuery nm)).length))) := by
  cases q with
  | missing => exact ⟨fun _ => rfl, fun nm h => by cases h⟩
  | nonString => exact ⟨fun _ => rfl, fun nm h => by cases h⟩
  | str nm0 =>
    constructor
    · intro hv
      have hcond : nm0 = "" ∨ strTrim nm0 = "" := by
        simp [validQuery] at hv
        by_cases h : nm0 = ""
        · left; exact h
        · right; exact hv h
      simp [deleteCountriesByName, hcond]
    · intro nm heq hv
      cases heq
      have hcond : ¬ (nm0 = "" ∨ strTrim nm0 = "") := by
        simp [validQuery] at hv
        rcases hv with ⟨h1, h2⟩
        rintro (h | h)
        · exact h1 h
        · exact h2 h
      constructor
      · intro hfil
        simp [deleteCountriesByName, hcond, hfil]
      · intro hfil
        rcases hlist : s.rows.filter (matchesQuery nm0) with _ | ⟨r, rs⟩
        · exact absurd hlist hfil
        · simp [deleteCountriesByName, hcond, hlist]

/-- C8 witness: deleting by the query `zz-nonexistent` fails with
`NotFoundError` and leaves the store unchanged. -/
theorem countriesC8_amended_witness :
    deleteCountriesByName ukStore (.str "zz-nonexistent") = (ukStore, .error .notFound) :=
  ((countriesC8_amended ukStore (.str "zz-nonexistent")).2 "zz-nonexistent" rfl
    (by decide)).1 (by decide)

/-! Claim C9: the stored population. -/

/-- C9 counterexample: a raw record whose numeric population is `-5` is
stored with population `-5`: `parseInt(-5) || 0` passes a negative
number through, so the claim that the stored population is always
non-negative is false. -/
theorem countriesC9_counterexample :
    cNegPop.population = .num (-5) ∧
    (transformCountry [] 1500 cNegPop).population = -5 ∧
    (transformCountry [] 1500 cNegPop).population < 0 := ⟨rfl, rfl, by decide⟩

/-- C9 (amended): the stored population equals the source value for
every numeric integer source value — including negative ones, which are
stored as-is — and defaults to 0 when the source value is missing or
non-numeric; it is non-negative whenever the source value is. -/
theorem countriesC9_amended (c : RawCountry) (rates : RateMap) (m : ℚ) :
    (∀ n, c.population = .num n → (transformCountry rates m c).population = n) ∧
    (c.population = .missing → (transformCountry rates m c).population = 0) ∧
    (c.population = .nonNum → (transformCountry rates m c).population = 0) ∧
    (∀ n, c.population = .num n → 0 ≤ n → 0 ≤ (transformCountry rates m c).population) := by
  refine ⟨?_, ?_, ?_, ?_⟩
  · intro n h
    simp [transformCountry, parsePopulation, h]
  · intro h
    simp [transformCountry, parsePopulation, h]
  · intro h
    simp [transformCountry, parsePopulation, h]
  · intro n h hn
    simp [transformCountry, parsePopulation, h]
    exact hn

/-- C9 witness: a record with numeric population 5 stores population 5. -/
theorem countriesC9_amended_witness :
    (transformCountry [] 1500 cFivePop).population = 5 :=
  (countriesC9_amended cFivePop [] 1500).1 5 rfl

/-! Claim C10: nameless records are stored under `Unknown`. -/

/-- A record with a falsy (absent or empty) name is transformed to the
name `Unknown`. -/
theorem transform_name_unknown (rates : RateMap) (m : ℚ) (c : RawCountry)
    (h : strTruthy c.name = false) : (transformCountry rates m c).name = "Unknown" := by
  rcases hc : c.name with _ | s
  · simp [transformCountry, jsStrOr, hc]
  · rw [hc] at h
    have hs : s = "" := by simpa [strTruthy] using h
    simp [transformCountry, jsStrOr, hc, hs]

/-- Helper: upserting a run of nameless records into a store holding the
single `Unknown` row under id 0 keeps exactly that row, whose data ends
up being the transform of the last record (with its own multiplier). -/
theorem applyRecords_unknown (rates : RateMap) (mult : Nat → ℚ) :
    ∀ (cs : List RawCountry) (k : Nat) (d0 : CountryData), d0.name = "Unknown" →
      (∀ c' ∈ cs, strTruthy c'.name = false) →
      applyRecords rates mult k cs ⟨[⟨0, d0⟩], 1⟩
        = ⟨[⟨0, ((cs.getLast?).map
            (fun cl => transformCountry rates (mult (k + cs.length - 1)) cl)).getD d0⟩], 1⟩ := by
  intro cs
  induction cs with
  | nil =>
    intro k d0 hd0 hall
    rfl
  | cons c cs ih =>
    intro k d0 hd0 hall
    have hcname : (transformCountry rates (mult k) c).name = "Unknown" :=
      transform_name_unknown rates (mult k) c (hall c (List.mem_cons_self c cs))
    have hfind : findOneByName ⟨[⟨0, d0⟩], 1⟩ (transformCountry rates (mult k) c).name
        = some ⟨0, d0⟩ := by
      simp [findOneByName, nameEq, hcname, hd0]
    have hup : upsert ⟨[⟨0, d0⟩], 1⟩ (transformCountry rates (mult k) c)
        = ⟨[⟨0, transformCountry rates (mult k) c⟩], 1⟩ := by
      simp [upsert, hfind]
    have hstep : applyRecords rates mult k (c :: cs) ⟨[⟨0, d0⟩], 1⟩
        = applyRecords rates mult (k + 1) cs ⟨[⟨0, transformCountry rates (mult k) c⟩], 1⟩ := by
      simp [applyRecords, hup]
    rw [hstep, ih (k + 1) (transformCountry rates (mult k) c) hcname
      (fun c' hc' => hall c' (List.mem_cons_of_mem c hc'))]
    cases cs with
    | nil => rfl
    | cons c2 cs2 =>
      rw [List.getLast?_cons_cons]
      have hidx : k + 1 + (c2 :: cs2).length - 1 = k + (c :: c2 :: cs2).length - 1 := by
        simp [List.length_cons]
        omega
      rw [hidx]
      rcases hgl : (c2 :: cs2).getLast? with _ | cl
      · exact absurd hgl (by simp)
      · simp [hgl]

/-- C10: a raw record with a missing or empty name is stored under the
name `Unknown`; the transformed name is never empty (so the refresh
never writes a record with an absent name); and a refresh whose source
records are all nameless, run against an empty store, ends with exactly
one row — id 0, holding the transform of the *last* source record, each
earlier nameless record having been overwritten in turn. -/
theorem countriesC10 (rates : RateMap) (mult : Nat → ℚ) (m : ℚ) (c : RawCountry)
    (cs : List RawCountry) :
    (strTruthy c.name = false → (transformCountry rates m c).name = "Unknown") ∧
    (transformCountry rates m c).name ≠ "" ∧
    (∀ c₀, cs.getLast? = some c₀ → (∀ c' ∈ cs, strTruthy c'.name = false) →
      applyRecords rates mult 0 cs emptyStore
        = ⟨[⟨0, transformCountry rates (mult (cs.length - 1)) c₀⟩], 1⟩) := by
  refine ⟨transform_name_unknown rates m c, ?_, ?_⟩
  · rcases hc : c.name with _ | str
    · simp [transformCountry, jsStrOr, hc]
    · by_cases hs : str = ""
      · simp [transformCountry, jsStrOr, hc, hs]
      · simp [transformCountry, jsStrOr, hc, hs]
  · intro c₀ hlast hall
    cases cs with
    | nil => cases hlast
    | cons c1 cs1 =>
      have hname1 : (transformCountry rates (mult 0) c1).name = "Unknown" :=
        transform_name_unknown rates (mult 0) c1 (hall c1 (List.mem_cons_self c1 cs1))
      have hins : upsert emptyStore (transformCountry rates (mult 0) c1)
          = ⟨[⟨0, transformCountry rates (mult 0) c1⟩], 1⟩ := by
        simp [upsert, findOneByName, emptyStore]
      have hstep : applyRecords rates mult 0 (c1 :: cs1) emptyStore
          = applyRecords rates mult 1 cs1 ⟨[⟨0, transformCountry rates (mult 0) c1⟩], 1⟩ := by
        simp [applyRecords, hins]
      rw [hstep, applyRecords_unknown rates mult cs1 1 (transformCountry rates (mult 0) c1)
        hname1 (fun c' hc' => hall c' (List.mem_cons_of_mem c1 hc'))]
      cases cs1 with
      | nil =>
        have he : c1 = c₀ := by simpa using hlast
        subst he
        rfl
      | cons c2 cs2 =>
        have hl : (c2 :: cs2).getLast? = some c₀ := by
          rw [← hlast]
          exact List.getLast?_cons_cons.symm
        have hidx : 1 + (c2 :: cs2).length - 1 = (c1 :: c2 :: cs2).length - 1 := by
          simp [List.length_cons]
        rw [hl, hidx]
        rfl

/-- C10 witness: two nameless records (one absent name, one empty-string
name) refreshed into an empty store leave a single `Unknown` row holding
the second record's transform. -/
theorem countriesC10_witness :
    applyRecords [] (fun _ => 1500) 0 [cNoName1, cNoName2] emptyStore
      = ⟨[⟨0, transformCountry [] 1500 cNoName2⟩], 1⟩ :=
  (countriesC10 [] (fun _ => 1500) 1500 cNoName1 [cNoName1, cNoName2]).2.2 cNoName2 rfl
    (by decide)

end CountryApi
